import Mathlib

/-!
Verification of the image uploader's matching engine (app/lib/matching.ts) and
three-phase upload orchestrator (app/routes/app.api.upload.tsx together with
the client-side handleUpload routine).

JavaScript strings are modelled as lists of characters, numbers occurring as
byte counts as `Nat`, and the network boundary (GraphQL control-plane calls
and direct storage transfers) as oracle parameters describing the remote
responses.  Case conversion uses `Char.toLower`, which performs the basic
latin folding; the source's `toLowerCase()` agrees with it on the ASCII
filenames and handles this pipeline processes.
-/

namespace ImageUploader

/-- A JavaScript string, modelled as its sequence of characters. -/
abbrev Str := List Char

/-- matching.ts `SUPPORTED_EXTENSIONS = ['.png', '.jpg', '.jpeg', '.webp', '.gif']`. -/
def SUPPORTED_EXTENSIONS : List Str :=
  [".png".data, ".jpg".data, ".jpeg".data, ".webp".data, ".gif".data]

/-- matching.ts `MAX_FILE_SIZE_BYTES = 20 * 1024 * 1024` (20MB, Shopify's limit). -/
def MAX_FILE_SIZE_BYTES : Nat := 20 * 1024 * 1024

/-- The characters the JavaScript regex wildcard `.` does NOT match: the line
terminators LF, CR, U+2028 and U+2029. -/
def isLineTerminator (c : Char) : Bool :=
  c.toNat == 10 || c.toNat == 13 || c.toNat == 8232 || c.toNat == 8233

/-- Does `tail` (the end of a filename) match a regex alternative written
`.xyz` against the end of the string: one wildcard character followed by the
letters of `ext` compared case-insensitively?  `ext` is given lower-case. -/
def wildExtMatch (tail ext : Str) : Bool :=
  match tail with
  | [] => false
  | c :: rest => !isLineTerminator c && rest.map Char.toLower == ext

/-- Does `name` end with a match of the alternative `.ext$`?  Only the last
`ext.length + 1` characters are relevant because the pattern is end-anchored. -/
def endsWithWildExt (name ext : Str) : Bool :=
  wildExtMatch (name.drop (name.length - (ext.length + 1))) ext

/-- The `replace` step of `extractHandleFromFilename`.  matching.ts builds
`new RegExp('(' + SUPPORTED_EXTENSIONS.join('|') + ')$', 'i')`, i.e.
`(.png|.jpg|.jpeg|.webp|.gif)$` with the dots left unescaped, so every
alternative is a wildcard character followed by literal letters.  Because each
alternative is end-anchored and 4 or 5 characters long, a match can only start
at `length - 4` or `length - 5`; the regex engine prefers the leftmost match,
so the five-character alternatives `.jpeg` / `.webp` take precedence. -/
def stripExt (name : Str) : Str :=
  if endsWithWildExt name "jpeg".data || endsWithWildExt name "webp".data then
    name.take (name.length - 5)
  else if endsWithWildExt name "png".data || endsWithWildExt name "jpg".data
      || endsWithWildExt name "gif".data then
    name.take (name.length - 4)
  else name

/-- matching.ts `extractHandleFromFilename`: strip the (wildcard-dotted)
extension pattern from the end of the filename, lower-case the remainder. -/
def extractHandleFromFilename (name : Str) : Str :=
  (stripExt name).map Char.toLower

/-- JavaScript `String.prototype.split('.')`: the list of chunks between
dots; always non-empty ("" splits to [""]). -/
def splitOnDot (s : Str) : List Str :=
  match s with
  | [] => [[]]
  | c :: rest =>
    let tail := splitOnDot rest
    if c = '.' then [] :: tail
    else
      match tail with
      | t :: ts => (c :: t) :: ts
      | [] => [[c]]

/-- JavaScript `Array.prototype.join(sep)` over a list of strings. -/
def joinStrs (sep : Str) : List Str → Str
  | [] => []
  | [x] => x
  | x :: xs => x ++ sep ++ joinStrs sep xs

/-- The `'.' + file.name.split('.').pop()?.toLowerCase()` expression of
`validateImageFile`: a dot followed by the lower-cased last dot-separated
chunk of the name (`split` never returns an empty array, so `pop` is total). -/
def fileExtension (name : Str) : Str :=
  '.' :: ((splitOnDot name).getLastD []).map Char.toLower

/-- The `(file.size / (1024 * 1024)).toFixed(1)` expression of
`validateImageFile`.  Dividing an integer below 2^53 by 2^20 is exact in
binary floating point, and `toFixed(1)` picks the integer count of tenths
closest to the value, preferring the larger on ties, so the displayed string
is `round-half-up(size * 10 / 2^20)` split into integer part and one digit. -/
def jsSizeMB (size : Nat) : Str :=
  let tenths := (size * 10 + 524288) / 1048576
  (Nat.repr (tenths / 10)).data ++ ['.'] ++ (Nat.repr (tenths % 10)).data

/-- Result type of `validateImageFile`: `{ valid: boolean; error?: string }`. -/
structure ValidationResult where
  valid : Bool
  error : Option Str
deriving DecidableEq

/-- matching.ts `validateImageFile`: extension whitelist check first, then
the size ceiling, first failure wins. -/
def validateImageFile (name : Str) (size : Nat) : ValidationResult :=
  let extension := fileExtension name
  if !(SUPPORTED_EXTENSIONS.contains extension) then
    { valid := false
      error := some ("Unsupported file type: ".data ++ extension
        ++ ". Supported: ".data ++ joinStrs ", ".data SUPPORTED_EXTENSIONS) }
  else if size > MAX_FILE_SIZE_BYTES then
    { valid := false
      error := some ("File too large: ".data ++ jsSizeMB size
        ++ "MB. Maximum: 20MB".data) }
  else
    { valid := true, error := none }

/-- A remote catalog record (lib/types.ts `ShopifyProduct`); the
`featuredImage` and `media` fields are never read by the embedded functions
and are omitted. -/
structure ShopifyProduct where
  id : Str
  handle : Str
  title : Str
  status : Str
deriving DecidableEq

/-- A local image file (lib/types.ts `ImageFile`); the `previewUrl` and
`file` fields are never read by the embedded functions and are omitted. -/
structure ImageFile where
  name : Str
  size : Nat
  type : Str
deriving DecidableEq

/-- lib/types.ts `MatchResult`. -/
structure MatchResult where
  image : ImageFile
  product : Option ShopifyProduct
  matched : Bool
  handle : Str
deriving DecidableEq

/-- lib/types.ts `MatchSummary`. -/
structure MatchSummary where
  total : Nat
  matched : Nat
  unmatched : Nat
  results : List MatchResult
deriving DecidableEq

/-- JavaScript `Map.prototype.set` on an association list: overwrite the
value in place if the key is present, otherwise append the entry. -/
def mapSet (m : List (Str × ShopifyProduct)) (k : Str) (v : ShopifyProduct) :
    List (Str × ShopifyProduct) :=
  match m with
  | [] => [(k, v)]
  | (k0, v0) :: rest =>
    if k0 = k then (k, v) :: rest else (k0, v0) :: mapSet rest k v

/-- JavaScript `Map.prototype.get` on an association list. -/
def mapGet (m : List (Str × ShopifyProduct)) (k : Str) : Option ShopifyProduct :=
  match m with
  | [] => none
  | (k0, v0) :: rest => if k0 = k then some v0 else mapGet rest k

/-- The `productsByHandle` map of `matchImagesToProducts`: records inserted
in their given order under their lower-cased handle, later records
overwriting earlier ones with the same key. -/
def buildHandleIndex (products : List ShopifyProduct) : List (Str × ShopifyProduct) :=
  products.foldl (fun m p => mapSet m (p.handle.map Char.toLower) p) []

/-- matching.ts `matchImagesToProducts`: index the records by lower-cased
handle, then resolve each image in input order via its derived key. -/
def matchImagesToProducts (images : List ImageFile) (products : List ShopifyProduct) :
    MatchSummary :=
  let productsByHandle := buildHandleIndex products
  let results := images.map (fun image =>
    let handle := extractHandleFromFilename image.name
    let product := mapGet productsByHandle handle
    { image := image, product := product, matched := product.isSome, handle := handle })
  let matchedCount := (results.filter (fun r => r.matched)).length
  { total := images.length
    matched := matchedCount
    unmatched := images.length - matchedCount
    results := results }

/-- The last record of the list satisfying `pred`, if any: the value a series
of `mapSet` insertions leaves in the index for that key. -/
def lastWith (pred : ShopifyProduct → Bool) : List ShopifyProduct → Option ShopifyProduct
  | [] => none
  | p :: ps =>
    match lastWith pred ps with
    | some q => some q
    | none => if pred p then some p else none

/-! ## Upload orchestrator (app/routes/app.api.upload.tsx and handleUpload)

The client-side `handleUpload` drives three phases: a batch control-plane call
for staged upload slots (the `get-upload-urls` action), one direct transfer
per slot, and one batch control-plane call attaching the transferred items
(the `attach-media` action).  Remote behavior is supplied through oracle
parameters; the model additionally records which transfer and attach calls
were issued so that claims about call counts can be stated. -/

/-- One entry of the `uploads` payload sent to the `get-upload-urls` action
(`UploadRequest` in app.api.upload.tsx). -/
structure UploadRequest where
  productId : Str
  filename : Str
  mimeType : Str
  fileSize : Nat
deriving DecidableEq

/-- One named multipart parameter of a staged target. -/
structure Param where
  name : Str
  value : Str
deriving DecidableEq

/-- A staged target as returned by Shopify's `stagedUploadsCreate`, before the
action tags it with the requesting product. -/
structure RawStagedTarget where
  url : Str
  resourceUrl : Str
  parameters : List Param
deriving DecidableEq

/-- A staged target as returned by the `get-upload-urls` action: Shopify's
target plus the productId/filename of the upload request at the same index. -/
structure StagedTarget where
  url : Str
  resourceUrl : Str
  parameters : List Param
  productId : Str
  filename : Str
deriving DecidableEq

/-- Outcome of the server's `stagedUploadsCreate` GraphQL call: either the
request threw (transport/API exception, carrying the Error message) or it
returned targets together with a possibly empty `userErrors` list. -/
inductive GqlStagedResult where
  | threw (msg : Str)
  | returned (stagedTargets : List RawStagedTarget) (userErrors : List Str)
deriving DecidableEq

/-- Response of the `get-upload-urls` action as consumed by `handleUpload`:
`{success:false, error}` or `{success:true, targets}`. -/
inductive SlotActionResp where
  | failure (error : Str)
  | success (targets : List StagedTarget)
deriving DecidableEq

/-- The `get-upload-urls` branch of the api.upload action (lines 64-107):
surface joined `userErrors` as a batch failure, otherwise zip each staged
target with the productId/filename of the upload request at its index.
Should Shopify return more targets than requests, the JavaScript indexing
`uploads[index].productId` throws a TypeError that the surrounding catch
converts to a `{success:false, error}` response. -/
def getUploadUrlsAction (uploads : List UploadRequest) (gql : GqlStagedResult) :
    SlotActionResp :=
  match gql with
  | .threw msg => .failure msg
  | .returned targets userErrors =>
    if userErrors.isEmpty then
      if uploads.length < targets.length then
        .failure "Cannot read properties of undefined".data
      else
        .success (List.zipWith
          (fun (t : RawStagedTarget) (u : UploadRequest) =>
            { url := t.url, resourceUrl := t.resourceUrl, parameters := t.parameters
              productId := u.productId, filename := u.filename })
          targets uploads)
    else .failure (joinStrs ", ".data userErrors)

/-- One entry of the `attachments` payload sent to the `attach-media` action. -/
structure Attachment where
  productId : Str
  resourceUrl : Str
  filename : Str
deriving DecidableEq

/-- Outcome of one `productCreateMedia` GraphQL call inside the
`attach-media` action: the call threw, or returned `mediaUserErrors`. -/
inductive GqlAttachResult where
  | threw (msg : Str)
  | returned (mediaUserErrors : List Str)
deriving DecidableEq

/-- One entry of the `results` list of the `attach-media` action
(`UploadResult` in app.api.upload.tsx). -/
structure UploadResult where
  filename : Str
  productId : Str
  success : Bool
  error : Option Str
deriving DecidableEq

/-- The `attach-media` branch of the api.upload action (lines 109-161): one
`productCreateMedia` call per attachment, in order; non-empty
`mediaUserErrors` or a thrown exception become a per-item failure entry,
otherwise a per-item success entry.  The action itself always responds
`{success:true, results}`. -/
def attachMediaAction (attachments : List Attachment)
    (gql : Attachment → GqlAttachResult) : List UploadResult :=
  attachments.map (fun a =>
    match gql a with
    | .threw msg =>
      { filename := a.filename, productId := a.productId
        success := false, error := some msg }
    | .returned errs =>
      if errs.isEmpty then
        { filename := a.filename, productId := a.productId
          success := true, error := none }
      else
        { filename := a.filename, productId := a.productId
          success := false, error := some (joinStrs ", ".data errs) })

/-- Result of one direct transfer to a staged URL in phase 2: HTTP success
(`response.ok`), an HTTP error status, or a thrown exception. -/
inductive TransferResult where
  | ok
  | httpError
  | threw
deriving DecidableEq

/-- The `successfulUploads` array built by the phase-2 loop of `handleUpload`
(lines 469-506): for each target in order, skip it when its file is absent
from `fileMapRef`; otherwise issue the transfer and keep the
productId/resourceUrl/filename triple exactly when the response was ok.
Failed or skipped targets leave no trace beyond a console message. -/
def phase2Survivors (hasFile : Str → Bool) (transfer : StagedTarget → TransferResult)
    (targets : List StagedTarget) : List Attachment :=
  targets.filterMap (fun t =>
    if hasFile t.filename then
      match transfer t with
      | .ok => some { productId := t.productId, resourceUrl := t.resourceUrl
                      filename := t.filename }
      | _ => none
    else none)

/-- Observable trace of one `handleUpload` invocation: the transfers issued,
the attach-call payloads issued, the final `uploadResults` state, and the
error surfaced by the outer catch (as an error toast), if any. -/
structure OrchTrace where
  transferCalls : List StagedTarget
  attachCalls : List (List Attachment)
  outcomes : List UploadResult
  surfacedError : Option Str
deriving DecidableEq

/-- The client-side orchestrator `handleUpload` (app/_index route, lines
435-553), starting from the matched pairs already flattened into upload
requests.  `stagedTransportThrew` / `attachTransportThrew` model the fetch to
the api.upload route itself throwing; `stagedGql` and `attachGql` model the
server-observed GraphQL outcomes.  A `{success:false}` slot response is
thrown (`stagedData.error || "Failed to get upload URLs"`) and caught by the
outer catch; `uploadResults` was reset to `[]` beforehand and is only
repopulated from a successful attach response, so every abort path ends with
an empty outcome list. -/
def handleUpload (pairs : List UploadRequest)
    (stagedTransportThrew : Option Str) (stagedGql : GqlStagedResult)
    (hasFile : Str → Bool) (transfer : StagedTarget → TransferResult)
    (attachTransportThrew : Option Str) (attachGql : Attachment → GqlAttachResult) :
    OrchTrace :=
  match stagedTransportThrew with
  | some msg => { transferCalls := [], attachCalls := [], outcomes := [], surfacedError := some msg }
  | none =>
    match getUploadUrlsAction pairs stagedGql with
    | .failure e =>
      { transferCalls := [], attachCalls := [], outcomes := []
        surfacedError := some (if e.isEmpty then "Failed to get upload URLs".data else e) }
    | .success targets =>
      let transferCalls := targets.filter (fun t => hasFile t.filename)
      let successfulUploads := phase2Survivors hasFile transfer targets
      if successfulUploads.isEmpty then
        { transferCalls := transferCalls, attachCalls := [], outcomes := []
          surfacedError := none }
      else
        match attachTransportThrew with
        | some msg =>
          { transferCalls := transferCalls, attachCalls := [successfulUploads]
            outcomes := [], surfacedError := some msg }
        | none =>
          { transferCalls := transferCalls, attachCalls := [successfulUploads]
            outcomes := attachMediaAction successfulUploads attachGql
            surfacedError := none }

/-! ## Concrete batch used for counterexamples and witnesses: three matched
pairs, phase 1 succeeds with three slots, the transfer of the second item
fails with a non-success status, attach succeeds for the rest. -/

/-- Three matched pairs submitted to the orchestrator. -/
def cexPairs : List UploadRequest :=
  [⟨"gid1".data, "a.png".data, "image/png".data, 100⟩,
   ⟨"gid2".data, "b.png".data, "image/png".data, 100⟩,
   ⟨"gid3".data, "c.png".data, "image/png".data, 100⟩]

/-- Phase 1 returns three staged targets and no user errors. -/
def cexGql : GqlStagedResult :=
  .returned [⟨"u1".data, "r1".data, []⟩, ⟨"u2".data, "r2".data, []⟩,
             ⟨"u3".data, "r3".data, []⟩] []

/-- The three targets the `get-upload-urls` action hands back for `cexPairs`. -/
def cexTargets : List StagedTarget :=
  [⟨"u1".data, "r1".data, [], "gid1".data, "a.png".data⟩,
   ⟨"u2".data, "r2".data, [], "gid2".data, "b.png".data⟩,
   ⟨"u3".data, "r3".data, [], "gid3".data, "c.png".data⟩]

/-- Item 2's direct transfer returns a non-success status; items 1 and 3
transfer fine. -/
def cexTransfer (t : StagedTarget) : TransferResult :=
  if t.filename == "b.png".data then .httpError else .ok

/-- The resulting orchestrator trace (every file present, attach succeeds). -/
def cexTrace : OrchTrace :=
  handleUpload cexPairs none cexGql (fun _ => true) cexTransfer none (fun _ => .returned [])

/-! ## Helper lemmas -/

/-- Splitting a dot-free string on dots yields the one-chunk list. -/
theorem splitOnDot_of_not_mem (name : Str) (h : '.' ∉ name) :
    splitOnDot name = [name] := by
  induction name with
  | nil => rfl
  | cons c rest ih =>
    simp only [List.mem_cons, not_or] at h
    have hc : ¬ c = '.' := fun hh => h.1 hh.symm
    unfold splitOnDot
    simp only [hc, if_false, ih h.2]

/-- A `Map.set` on the association-list model behaves as an overwrite for
subsequent `Map.get`. -/
theorem mapGet_mapSet (m : List (Str × ShopifyProduct)) (k k' : Str)
    (v : ShopifyProduct) :
    mapGet (mapSet m k v) k' = if k = k' then some v else mapGet m k' := by
  induction m with
  | nil => simp [mapSet, mapGet]
  | cons e rest ih =>
    obtain ⟨k0, v0⟩ := e
    by_cases h : k0 = k
    · subst h
      simp only [mapSet, if_pos rfl, mapGet]
      split_ifs with h1 <;> simp_all
    · simp only [mapSet, if_neg h, mapGet, ih]
      split_ifs with h1 h2 <;> simp_all

/-- Folding `Map.set` insertions over the record list leaves, for each key,
the last record whose lower-cased handle equals the key. -/
theorem mapGet_foldl_handle (k : Str) (ps : List ShopifyProduct) :
    ∀ m : List (Str × ShopifyProduct),
      mapGet (ps.foldl (fun m p => mapSet m (p.handle.map Char.toLower) p) m) k
        = match lastWith (fun p => p.handle.map Char.toLower == k) ps with
          | some q => some q
          | none => mapGet m k := by
  induction ps with
  | nil => intro m; rfl
  | cons p ps ih =>
    intro m
    simp only [List.foldl_cons]
    rw [ih]
    cases hl : lastWith (fun p => p.handle.map Char.toLower == k) ps with
    | some q => simp [lastWith, hl]
    | none =>
      simp only [lastWith, hl, mapGet_mapSet]
      by_cases hp : p.handle.map Char.toLower = k <;> simp [hp]

/-- The handle index resolves a key to the last record carrying it. -/
theorem mapGet_buildHandleIndex (ps : List ShopifyProduct) (k : Str) :
    mapGet (buildHandleIndex ps) k
      = lastWith (fun p => p.handle.map Char.toLower == k) ps := by
  have h := mapGet_foldl_handle k ps []
  rw [buildHandleIndex] at *
  cases hl : lastWith (fun p => p.handle.map Char.toLower == k) ps <;>
    simp [hl, mapGet] at h <;> simp [h]

/-- Char.toLower never moves a character into or out of the line-terminator
set: letters and their images are not line terminators, and every other
character is fixed. -/
theorem isLineTerminator_toLower (c : Char) :
    isLineTerminator c.toLower = isLineTerminator c := by
  simp only [Char.toLower]
  split
  next h =>
    obtain ⟨h1, h2⟩ := h
    unfold isLineTerminator
    generalize hn : c.toNat = n at h1 h2 ⊢
    interval_cases n <;> decide
  next => rfl

/-- Characters with the same lower-casing agree on line-terminator-hood. -/
theorem isLineTerminator_congr {a b : Char} (h : a.toLower = b.toLower) :
    isLineTerminator a = isLineTerminator b := by
  rw [← isLineTerminator_toLower a, ← isLineTerminator_toLower b, h]

/-- The wildcard-plus-letters matcher only depends on the lower-casing of the
candidate tail. -/
theorem wildExtMatch_congr {a b : Str} (ext : Str)
    (h : a.map Char.toLower = b.map Char.toLower) :
    wildExtMatch a ext = wildExtMatch b ext := by
  cases a with
  | nil =>
    cases b with
    | nil => rfl
    | cons d ds => simp at h
  | cons c cs =>
    cases b with
    | nil => simp at h
    | cons d ds =>
      simp only [List.map_cons, List.cons.injEq] at h
      obtain ⟨hcd, hrest⟩ := h
      simp only [wildExtMatch, hrest, isLineTerminator_congr hcd]

/-- End-anchored matching only depends on the lower-casing of the filename. -/
theorem endsWithWildExt_congr {s t : Str} (ext : Str)
    (h : s.map Char.toLower = t.map Char.toLower) :
    endsWithWildExt s ext = endsWithWildExt t ext := by
  have hlen : s.length = t.length := by
    have h' := congrArg List.length h
    simpa using h'
  unfold endsWithWildExt
  rw [hlen]
  apply wildExtMatch_congr
  rw [List.map_drop, List.map_drop, h]

/-- A filename ending in a wildcard character followed by the (lower-case
fixed) letters of `ext` matches the end-anchored alternative for `ext`. -/
theorem endsWithWildExt_append_self (base : Str) (c : Char) (ext : Str)
    (hc : isLineTerminator c = false) (hlow : ext.map Char.toLower = ext) :
    endsWithWildExt (base ++ c :: ext) ext = true := by
  unfold endsWithWildExt
  have hlen : (base ++ c :: ext).length - (ext.length + 1) = base.length := by
    simp
  rw [hlen, List.drop_left]
  simp [wildExtMatch, hc, hlow]

/-- A filename ending in a wildcard character followed by `ext` does not
match an alternative `pat` that is one letter longer, provided neither the
last `pat.length` characters (wildcard slot included) nor the last
`ext.length` characters lower to `pat`. -/
theorem endsWithWildExt_append_ne (base : Str) (c : Char) (ext pat : Str)
    (hlen : ext.length + 1 = pat.length)
    (hmm : ((c :: ext).map Char.toLower == pat) = false)
    (hshort : (ext.map Char.toLower == pat) = false) :
    endsWithWildExt (base ++ c :: ext) pat = false := by
  unfold endsWithWildExt
  rcases base.eq_nil_or_concat with hb | ⟨bs, y, hb⟩
  · subst hb
    have h0 : (([] : Str) ++ c :: ext).length - (pat.length + 1) = 0 := by
      simp
      omega
    rw [h0, List.drop_zero]
    simp [wildExtMatch, hshort]
  · subst hb
    have harr : (bs.concat y) ++ c :: ext = bs ++ (y :: c :: ext) := by simp
    rw [harr]
    have hl2 : (bs ++ (y :: c :: ext)).length - (pat.length + 1) = bs.length := by
      simp
      omega
    rw [hl2, List.drop_left]
    simp only [wildExtMatch]
    rw [hmm, Bool.and_false]

/-- A filename ending in a wildcard character followed by `ext` does not
match an alternative `pat` of the same letter count when `ext` does not
lower to `pat`. -/
theorem endsWithWildExt_append_same (base : Str) (c : Char) (ext pat : Str)
    (hlen : ext.length = pat.length)
    (hshort : (ext.map Char.toLower == pat) = false) :
    endsWithWildExt (base ++ c :: ext) pat = false := by
  unfold endsWithWildExt
  have hl : (base ++ c :: ext).length - (pat.length + 1) = base.length := by
    simp
    omega
  rw [hl, List.drop_left]
  simp [wildExtMatch, hshort]

/-! ## Claims about the validator and matcher -/

/-- C8: for every input list of files and records, the MatchSummary satisfies
total = matched + unmatched, total equals the number of input files, and
there is one MatchResult per input file in input order. -/
theorem matchSummary_invariants (images : List ImageFile)
    (products : List ShopifyProduct) :
    (matchImagesToProducts images products).total
        = (matchImagesToProducts images products).matched
          + (matchImagesToProducts images products).unmatched
    ∧ (matchImagesToProducts images products).total = images.length
    ∧ (matchImagesToProducts images products).results.map (fun r => r.image)
        = images := by
  refine ⟨?_, rfl, ?_⟩
  · have hle : ((matchImagesToProducts images products).results.filter
        (fun r => r.matched)).length
        ≤ (matchImagesToProducts images products).results.length :=
      List.length_filter_le _ _
    simp only [matchImagesToProducts, List.length_map] at hle ⊢
    omega
  · simp [matchImagesToProducts, List.map_map, Function.comp_def]

/-- C5: validateImageFile evaluates the extension check first, so any file
whose extension is outside the whitelist is rejected regardless of size,
with an error naming the extension and listing the whitelist. -/
theorem validate_unsupported_extension (name : Str) (size : Nat)
    (h : SUPPORTED_EXTENSIONS.contains (fileExtension name) = false) :
    validateImageFile name size =
      { valid := false
        error := some ("Unsupported file type: ".data ++ fileExtension name
          ++ ". Supported: ".data ++ joinStrs ", ".data SUPPORTED_EXTENSIONS) } := by
  simp at h
  simp [validateImageFile, h]

/-- C5 witness: "photo.bmp" is rejected at 21MiB with the extension error
(the size failure never gets to speak). -/
theorem validate_unsupported_extension_witness :
    SUPPORTED_EXTENSIONS.contains (fileExtension "photo.bmp".data) = false
    ∧ validateImageFile "photo.bmp".data (21 * 1024 * 1024) =
      { valid := false
        error := some ("Unsupported file type: ".data ++ fileExtension "photo.bmp".data
          ++ ". Supported: ".data ++ joinStrs ", ".data SUPPORTED_EXTENSIONS) } :=
  ⟨by decide, validate_unsupported_extension "photo.bmp".data (21 * 1024 * 1024) (by decide)⟩

/-- C6: with a whitelisted extension, a file of exactly 20MiB passes the size
check and a file of 21MiB is rejected with the message reporting 21.0MB
against the 20MB ceiling. -/
theorem validate_size_boundary (name : Str)
    (h : SUPPORTED_EXTENSIONS.contains (fileExtension name) = true) :
    validateImageFile name (20 * 1024 * 1024) = { valid := true, error := none }
    ∧ validateImageFile name (21 * 1024 * 1024) =
      { valid := false
        error := some "File too large: 21.0MB. Maximum: 20MB".data } := by
  simp at h
  constructor
  · simp [validateImageFile, h, MAX_FILE_SIZE_BYTES]
  · simp [validateImageFile, h, MAX_FILE_SIZE_BYTES]
    decide

/-- C6 witness: instantiated at the filename "a.png". -/
theorem validate_size_boundary_witness :
    SUPPORTED_EXTENSIONS.contains (fileExtension "a.png".data) = true
    ∧ (validateImageFile "a.png".data (20 * 1024 * 1024) = { valid := true, error := none }
      ∧ validateImageFile "a.png".data (21 * 1024 * 1024) =
        { valid := false
          error := some "File too large: 21.0MB. Maximum: 20MB".data }) :=
  ⟨by decide, validate_size_boundary "a.png".data (by decide)⟩

/-- C10: a dot-free filename equal to a whitelisted extension name (such as
"png") passes validation when within the size limit, because split-on-dot
returns the whole name, which prefixed with '.' is in the whitelist. -/
theorem validate_dotless_extension_name (name : Str) (size : Nat)
    (h1 : ('.' :: name.map Char.toLower) ∈ SUPPORTED_EXTENSIONS)
    (h2 : '.' ∉ name) (h3 : size ≤ MAX_FILE_SIZE_BYTES) :
    validateImageFile name size = { valid := true, error := none } := by
  have hext : fileExtension name = '.' :: name.map Char.toLower := by
    simp [fileExtension, splitOnDot_of_not_mem name h2]
  have hsize : ¬ size > MAX_FILE_SIZE_BYTES := by omega
  simp [validateImageFile, hext, h1, hsize]

/-- C10 witness: the file named exactly "png" of size 100 is accepted. -/
theorem validate_dotless_extension_name_witness :
    (('.' :: "png".data.map Char.toLower) ∈ SUPPORTED_EXTENSIONS
      ∧ '.' ∉ "png".data ∧ 100 ≤ MAX_FILE_SIZE_BYTES)
    ∧ validateImageFile "png".data 100 = { valid := true, error := none } :=
  ⟨⟨by decide, by decide, by decide⟩,
   validate_dotless_extension_name "png".data 100 (by decide) (by decide) (by decide)⟩

/-- C7: when two records share the same lower-cased handle, a file whose
derived key equals that handle resolves to the later record (last-wins). -/
theorem match_duplicate_handle_last_wins (r1 r2 : ShopifyProduct)
    (img : ImageFile) (k : Str)
    (h1 : r1.handle.map Char.toLower = k) (h2 : r2.handle.map Char.toLower = k)
    (h3 : extractHandleFromFilename img.name = k) :
    (matchImagesToProducts [img] [r1, r2]).results.map (fun r => r.product)
      = [some r2] := by
  simp [matchImagesToProducts, h3, mapGet_buildHandleIndex, lastWith, h1, h2]

/-- C7 witness: records [{handle:"a"}, {handle:"a"}] and the file "a.png"
(derived key "a") match to the second record. -/
theorem match_duplicate_handle_last_wins_witness :
    (("a".data : Str).map Char.toLower = "a".data
      ∧ extractHandleFromFilename "a.png".data = "a".data)
    ∧ (matchImagesToProducts [⟨"a.png".data, 100, "image/png".data⟩]
        [⟨"gid1".data, "a".data, "First".data, "DRAFT".data⟩,
         ⟨"gid2".data, "a".data, "Second".data, "DRAFT".data⟩]).results.map
          (fun r => r.product)
      = [some ⟨"gid2".data, "a".data, "Second".data, "DRAFT".data⟩] :=
  ⟨⟨by decide, by decide⟩,
   match_duplicate_handle_last_wins
     ⟨"gid1".data, "a".data, "First".data, "DRAFT".data⟩
     ⟨"gid2".data, "a".data, "Second".data, "DRAFT".data⟩
     ⟨"a.png".data, 100, "image/png".data⟩ "a".data
     (by decide) (by decide) (by decide)⟩

/-- C4: filenames that differ only in letter case (equivalently, that have
the same lower-casing) derive the identical key. -/
theorem extractHandle_case_insensitive (s t : Str)
    (h : s.map Char.toLower = t.map Char.toLower) :
    extractHandleFromFilename s = extractHandleFromFilename t := by
  have hlen : s.length = t.length := by
    have h' := congrArg List.length h
    simpa using h'
  unfold extractHandleFromFilename stripExt
  rw [endsWithWildExt_congr "jpeg".data h, endsWithWildExt_congr "webp".data h,
      endsWithWildExt_congr "png".data h, endsWithWildExt_congr "jpg".data h,
      endsWithWildExt_congr "gif".data h, hlen]
  split_ifs
  · rw [List.map_take, List.map_take, h]
  · rw [List.map_take, List.map_take, h]
  · exact h

/-- C4 witness: "Blue-Widget.PNG" and "blue-widget.png" differ only in case
and both derive the key "blue-widget". -/
theorem extractHandle_case_insensitive_witness :
    "Blue-Widget.PNG".data.map Char.toLower = "blue-widget.png".data.map Char.toLower
    ∧ extractHandleFromFilename "Blue-Widget.PNG".data
        = extractHandleFromFilename "blue-widget.png".data
    ∧ extractHandleFromFilename "blue-widget.png".data = "blue-widget".data :=
  ⟨by decide, extractHandle_case_insensitive _ _ (by decide), by decide⟩

/-- C9: the unescaped dot in each whitelist entry acts as a regex wildcard,
so any non-line-terminator character followed by the letters of a
whitelisted extension is stripped from the end of the filename even without
a literal dot; the remainder is lower-cased. -/
theorem extractHandle_wildcard_dot (base : Str) (c : Char) (ext : Str)
    (h1 : ext ∈ ["png".data, "jpg".data, "jpeg".data, "webp".data, "gif".data])
    (h2 : isLineTerminator c = false) :
    extractHandleFromFilename (base ++ c :: ext) = base.map Char.toLower := by
  simp only [List.mem_cons, List.not_mem_nil, or_false] at h1
  unfold extractHandleFromFilename stripExt
  rcases h1 with h1 | h1 | h1 | h1 | h1 <;> subst h1
  · -- ext = "png"
    have hjpeg := endsWithWildExt_append_ne base c "png".data "jpeg".data rfl
      (by rw [List.map_cons, (by decide : "png".data.map Char.toLower = "png".data)]
          simp)
      (by decide)
    have hwebp := endsWithWildExt_append_ne base c "png".data "webp".data rfl
      (by rw [List.map_cons, (by decide : "png".data.map Char.toLower = "png".data)]
          simp)
      (by decide)
    have hself := endsWithWildExt_append_self base c "png".data h2 (by decide)
    rw [hjpeg, hwebp, hself]
    simp only [Bool.or_false, Bool.true_or, if_false, if_true]
    have hl : (base ++ c :: "png".data).length - 4 = base.length := by simp
    rw [hl, List.take_left]
    simp
  · -- ext = "jpg"
    have hjpeg := endsWithWildExt_append_ne base c "jpg".data "jpeg".data rfl
      (by rw [List.map_cons, (by decide : "jpg".data.map Char.toLower = "jpg".data)]
          simp)
      (by decide)
    have hwebp := endsWithWildExt_append_ne base c "jpg".data "webp".data rfl
      (by rw [List.map_cons, (by decide : "jpg".data.map Char.toLower = "jpg".data)]
          simp)
      (by decide)
    have hpng := endsWithWildExt_append_same base c "jpg".data "png".data rfl (by decide)
    have hself := endsWithWildExt_append_self base c "jpg".data h2 (by decide)
    rw [hjpeg, hwebp, hpng, hself]
    simp only [Bool.or_false, Bool.false_or, Bool.true_or, if_false, if_true]
    have hl : (base ++ c :: "jpg".data).length - 4 = base.length := by simp
    rw [hl, List.take_left]
    simp
  · -- ext = "jpeg"
    have hself := endsWithWildExt_append_self base c "jpeg".data h2 (by decide)
    rw [hself]
    simp only [Bool.true_or, if_true]
    have hl : (base ++ c :: "jpeg".data).length - 5 = base.length := by simp
    rw [hl, List.take_left]
  · -- ext = "webp"
    have hself := endsWithWildExt_append_self base c "webp".data h2 (by decide)
    rw [hself]
    simp only [Bool.or_true, if_true]
    have hl : (base ++ c :: "webp".data).length - 5 = base.length := by simp
    rw [hl, List.take_left]
  · -- ext = "gif"
    have hjpeg := endsWithWildExt_append_ne base c "gif".data "jpeg".data rfl
      (by rw [List.map_cons, (by decide : "gif".data.map Char.toLower = "gif".data)]
          simp)
      (by decide)
    have hwebp := endsWithWildExt_append_ne base c "gif".data "webp".data rfl
      (by rw [List.map_cons, (by decide : "gif".data.map Char.toLower = "gif".data)]
          simp)
      (by decide)
    have hpng := endsWithWildExt_append_same base c "gif".data "png".data rfl (by decide)
    have hjpg := endsWithWildExt_append_same base c "gif".data "jpg".data rfl (by decide)
    have hself := endsWithWildExt_append_self base c "gif".data h2 (by decide)
    rw [hjpeg, hwebp, hpng, hjpg, hself]
    simp only [Bool.or_false, Bool.false_or, Bool.true_or, if_false, if_true]
    have hl : (base ++ c :: "gif".data).length - 4 = base.length := by simp
    rw [hl, List.take_left]
    simp

/-- C9 witness: "blue-widgetxpng" (the key "blue-widget", an 'x' and the
letters "png", no dot anywhere) derives the key "blue-widget". -/
theorem extractHandle_wildcard_dot_witness :
    extractHandleFromFilename ("blue-widget".data ++ 'x' :: "png".data)
      = "blue-widget".data.map Char.toLower
    ∧ extractHandleFromFilename "blue-widgetxpng".data = "blue-widget".data :=
  ⟨extractHandle_wildcard_dot "blue-widget".data 'x' "png".data
    (by decide) (by decide), by decide⟩

/-! ## Claims about the upload orchestrator -/

/-- The attach results carry the filename and productId of the attachments
they were produced from, positionally, whatever the per-item GraphQL
outcomes are. -/
theorem attachMediaAction_fields (attachments : List Attachment)
    (gql : Attachment → GqlAttachResult) :
    (attachMediaAction attachments gql).map (fun r => (r.filename, r.productId))
      = attachments.map (fun a => (a.filename, a.productId)) := by
  unfold attachMediaAction
  rw [List.map_map]
  apply List.map_congr_left
  intro a _
  simp only [Function.comp_apply]
  cases hg : gql a with
  | threw msg => rfl
  | returned errs => by_cases he : errs.isEmpty <;> simp [he]

/-- The attach action produces exactly one result per attachment. -/
theorem attachMediaAction_length (attachments : List Attachment)
    (gql : Attachment → GqlAttachResult) :
    (attachMediaAction attachments gql).length = attachments.length :=
  List.length_map _ _

/-- When phase 1 succeeds and at least one item survives phase 2, the
orchestrator reaches phase 3 and its trace is the phase-3 trace. -/
theorem handleUpload_phase3 (pairs : List UploadRequest)
    (stagedGql : GqlStagedResult) (hasFile : Str → Bool)
    (transfer : StagedTarget → TransferResult)
    (attachGql : Attachment → GqlAttachResult) (targets : List StagedTarget)
    (h1 : getUploadUrlsAction pairs stagedGql = .success targets)
    (h2 : phase2Survivors hasFile transfer targets ≠ []) :
    handleUpload pairs none stagedGql hasFile transfer none attachGql
      = { transferCalls := targets.filter (fun t => hasFile t.filename)
          attachCalls := [phase2Survivors hasFile transfer targets]
          outcomes := attachMediaAction (phase2Survivors hasFile transfer targets) attachGql
          surfacedError := none } := by
  have hne : (phase2Survivors hasFile transfer targets).isEmpty = false := by
    cases hs : phase2Survivors hasFile transfer targets with
    | nil => exact absurd hs h2
    | cons a as => rfl
  unfold handleUpload
  rw [h1]
  simp [hne]

/-- C2: a batch-level phase-1 failure (an explicit error response or a
transport exception) yields zero outcomes, one surfaced error, no transfer
call and no attach call. -/
theorem handleUpload_phase1_failure (pairs : List UploadRequest)
    (stagedTransportThrew : Option Str) (stagedGql : GqlStagedResult)
    (hasFile : Str → Bool) (transfer : StagedTarget → TransferResult)
    (attachTransportThrew : Option Str) (attachGql : Attachment → GqlAttachResult)
    (h : stagedTransportThrew ≠ none
      ∨ ∃ e, getUploadUrlsAction pairs stagedGql = .failure e) :
    (handleUpload pairs stagedTransportThrew stagedGql hasFile transfer
        attachTransportThrew attachGql).outcomes = []
    ∧ (handleUpload pairs stagedTransportThrew stagedGql hasFile transfer
        attachTransportThrew attachGql).surfacedError.isSome = true
    ∧ (handleUpload pairs stagedTransportThrew stagedGql hasFile transfer
        attachTransportThrew attachGql).transferCalls = []
    ∧ (handleUpload pairs stagedTransportThrew stagedGql hasFile transfer
        attachTransportThrew attachGql).attachCalls = [] := by
  cases stagedTransportThrew with
  | some msg => simp [handleUpload]
  | none =>
    rcases h with h | ⟨e, he⟩
    · exact absurd rfl h
    · unfold handleUpload
      rw [he]
      simp

/-- C2 witness: one pair, the staged-upload call reports a user error; the
trace is empty apart from the surfaced error. -/
theorem handleUpload_phase1_failure_witness :
    ((none : Option Str) ≠ none
      ∨ ∃ e, getUploadUrlsAction cexPairs (.returned [] ["boom".data]) = .failure e)
    ∧ ((handleUpload cexPairs none (.returned [] ["boom".data]) (fun _ => true)
          cexTransfer none (fun _ => .returned [])).outcomes = []
      ∧ (handleUpload cexPairs none (.returned [] ["boom".data]) (fun _ => true)
          cexTransfer none (fun _ => .returned [])).surfacedError.isSome = true
      ∧ (handleUpload cexPairs none (.returned [] ["boom".data]) (fun _ => true)
          cexTransfer none (fun _ => .returned [])).transferCalls = []
      ∧ (handleUpload cexPairs none (.returned [] ["boom".data]) (fun _ => true)
          cexTransfer none (fun _ => .returned [])).attachCalls = []) :=
  ⟨Or.inr ⟨"boom".data, by decide⟩,
   handleUpload_phase1_failure cexPairs none (.returned [] ["boom".data])
     (fun _ => true) cexTransfer none (fun _ => .returned [])
     (Or.inr ⟨"boom".data, by decide⟩)⟩

/-- C3: when phase 1 succeeded and some pair survived phase 2, the
orchestrator issues exactly one attach call, its payload is the full list of
productId/resourceUrl/filename triples of the phase-2 survivors, and the
final outcomes are that single call's per-item results (one per survivor,
each success or error as reported for that item). -/
theorem attach_single_batched_call (pairs : List UploadRequest)
    (stagedGql : GqlStagedResult) (hasFile : Str → Bool)
    (transfer : StagedTarget → TransferResult)
    (attachGql : Attachment → GqlAttachResult) (targets : List StagedTarget)
    (h1 : getUploadUrlsAction pairs stagedGql = .success targets)
    (h2 : phase2Survivors hasFile transfer targets ≠ []) :
    (handleUpload pairs none stagedGql hasFile transfer none attachGql).attachCalls
        = [phase2Survivors hasFile transfer targets]
    ∧ (handleUpload pairs none stagedGql hasFile transfer none attachGql).outcomes
        = attachMediaAction (phase2Survivors hasFile transfer targets) attachGql
    ∧ (handleUpload pairs none stagedGql hasFile transfer none attachGql).outcomes.length
        = (phase2Survivors hasFile transfer targets).length := by
  rw [handleUpload_phase3 pairs stagedGql hasFile transfer attachGql targets h1 h2]
  exact ⟨rfl, rfl, attachMediaAction_length _ _⟩

/-- C3 witness: the concrete three-pair batch (item 2 fails transfer) makes
one attach call carrying the two survivors and gets two per-item results. -/
theorem attach_single_batched_call_witness :
    (getUploadUrlsAction cexPairs cexGql = .success cexTargets
      ∧ phase2Survivors (fun _ => true) cexTransfer cexTargets ≠ [])
    ∧ (cexTrace.attachCalls = [phase2Survivors (fun _ => true) cexTransfer cexTargets]
      ∧ cexTrace.outcomes
          = attachMediaAction (phase2Survivors (fun _ => true) cexTransfer cexTargets)
              (fun _ => .returned [])
      ∧ cexTrace.outcomes.length
          = (phase2Survivors (fun _ => true) cexTransfer cexTargets).length) :=
  ⟨⟨by decide, by decide⟩,
   attach_single_batched_call cexPairs cexGql (fun _ => true) cexTransfer
     (fun _ => .returned []) cexTargets (by decide) (by decide)⟩

/-- C1 counterexample: three matched pairs, phase 1 succeeds with three
slots, only item 2's transfer fails; the claim promises exactly 3 outcomes
with item 2 present as a transfer failure, but the orchestrator produces
only 2 outcomes and no entry at all for item 2's filename "b.png". -/
theorem upload_outcome_counterexample :
    cexPairs.length = 3
    ∧ getUploadUrlsAction cexPairs cexGql = .success cexTargets
    ∧ cexTargets.length = 3
    ∧ cexTrace.outcomes.length = 2
    ∧ ¬ cexTrace.outcomes.length = 3
    ∧ ∀ r ∈ cexTrace.outcomes, ¬ r.filename = "b.png".data := by
  decide

/-- C1 (amended): when phase 1 succeeds and at least one pair survives
phase 2, the outcome list contains exactly one entry per pair that succeeded
its phase-2 transfer, in order, carrying that pair's phase-3 result; pairs
whose transfer failed (or whose file content was missing) contribute no
outcome entry, and no batch error is surfaced. -/
theorem upload_outcomes_cover_survivors (pairs : List UploadRequest)
    (stagedGql : GqlStagedResult) (hasFile : Str → Bool)
    (transfer : StagedTarget → TransferResult)
    (attachGql : Attachment → GqlAttachResult) (targets : List StagedTarget)
    (h1 : getUploadUrlsAction pairs stagedGql = .success targets)
    (h2 : phase2Survivors hasFile transfer targets ≠ []) :
    (handleUpload pairs none stagedGql hasFile transfer none attachGql).outcomes.map
        (fun r => (r.filename, r.productId))
      = (phase2Survivors hasFile transfer targets).map (fun a => (a.filename, a.productId))
    ∧ (handleUpload pairs none stagedGql hasFile transfer none attachGql).outcomes.length
        = (phase2Survivors hasFile transfer targets).length
    ∧ (handleUpload pairs none stagedGql hasFile transfer none attachGql).surfacedError
        = none := by
  rw [handleUpload_phase3 pairs stagedGql hasFile transfer attachGql targets h1 h2]
  exact ⟨attachMediaAction_fields _ _, attachMediaAction_length _ _, rfl⟩

/-- C1 (amended) witness: on the concrete three-pair batch the two outcome
entries are exactly the two surviving pairs, in order. -/
theorem upload_outcomes_cover_survivors_witness :
    (getUploadUrlsAction cexPairs cexGql = .success cexTargets
      ∧ phase2Survivors (fun _ => true) cexTransfer cexTargets ≠ [])
    ∧ (cexTrace.outcomes.map (fun r => (r.filename, r.productId))
        = (phase2Survivors (fun _ => true) cexTransfer cexTargets).map
            (fun a => (a.filename, a.productId))
      ∧ cexTrace.outcomes.length
          = (phase2Survivors (fun _ => true) cexTransfer cexTargets).length
      ∧ cexTrace.surfacedError = none) :=
  ⟨⟨by decide, by decide⟩,
   upload_outcomes_cover_survivors cexPairs cexGql (fun _ => true) cexTransfer
     (fun _ => .returned []) cexTargets (by decide) (by decide)⟩

end ImageUploader
